import Mathlib

set_option maxHeartbeats 1000000

namespace IBird

/-!
Shallow embedding of the I-Bird attitude regulation module (regulator.c):
the quaternion orientation-error extraction, the mode state machine, the
telemetry pool hand-off and the per-cycle regulator facade.  External
collaborators (fixed-point trigonometry, the PID runner, digital filter
application, the attitude estimator and the clock) are abstracted as an
environment record.  Pieces of the repository that are not part of the
given source file (quat.c, pbuff.c, controller.c, dfilter.c, sync_servo.c)
are modelled from the specification and marked as such in their doc
comments.  Floating-point values are embedded as exact rationals; the
bams16 binary-angle type is embedded as an unbounded integer, with the
trigonometric collaborators left fully abstract.
-/

/-- Quaternion value (w, x, y, z) as stored by the regulator. -/
structure Quaternion where
  w : Rat
  x : Rat
  y : Rat
  z : Rat
  deriving DecidableEq

/-- Modelled from the spec: quaternion conjugate, from quat.c which is not
part of the given source. -/
def quatConj (q : Quaternion) : Quaternion :=
  ⟨q.w, -q.x, -q.y, -q.z⟩

/-- Modelled from the spec: the Hamilton product of two quaternions, from
quat.c which is not part of the given source. -/
def quatMult (a b : Quaternion) : Quaternion :=
  ⟨a.w * b.w - a.x * b.x - a.y * b.y - a.z * b.z,
   a.w * b.x + a.x * b.w + a.y * b.z - a.z * b.y,
   a.w * b.y - a.x * b.z + a.y * b.w + a.z * b.x,
   a.w * b.z + a.x * b.y - a.y * b.x + a.z * b.w⟩

/-- Modelled from the spec: PID controller state from controller.c, which is
not part of the given source.  The spec describes gains, reference weights,
an offset, saturation bounds and a running flag. -/
structure CtrlPidParamStruct where
  running : Bool
  ref : Rat
  kp : Rat
  ki : Rat
  kd : Rat
  offset : Rat
  beta : Rat
  gamma : Rat
  satMax : Rat
  satMin : Rat
  ts : Rat
  deriving DecidableEq

/-- Modelled from the spec: init(period) for the PID service. -/
def ctrlInitPidParams (ts : Rat) : CtrlPidParamStruct :=
  ⟨false, 0, 0, 0, 0, 0, 0, 0, 0, 0, ts⟩

/-- Modelled from the spec: setGains for the PID service. -/
def ctrlSetPidParams (pid : CtrlPidParamStruct) (ref kp ki kd : Rat) :
    CtrlPidParamStruct :=
  { pid with ref := ref, kp := kp, ki := ki, kd := kd }

/-- Modelled from the spec: setOffset for the PID service. -/
def ctrlSetPidOffset (pid : CtrlPidParamStruct) (offset : Rat) :
    CtrlPidParamStruct :=
  { pid with offset := offset }

/-- Modelled from the spec: setReferenceWeights for the PID service (the
source spells the call ctrlSetRefWeigts). -/
def ctrlSetRefWeigts (pid : CtrlPidParamStruct) (beta gamma : Rat) :
    CtrlPidParamStruct :=
  { pid with beta := beta, gamma := gamma }

/-- Modelled from the spec: setSaturation for the PID service. -/
def ctrlSetSaturation (pid : CtrlPidParamStruct) (mx mn : Rat) :
    CtrlPidParamStruct :=
  { pid with satMax := mx, satMin := mn }

/-- Modelled from the spec: start() for the PID service. -/
def ctrlStart (pid : CtrlPidParamStruct) : CtrlPidParamStruct :=
  { pid with running := true }

/-- Modelled from the spec: stop() for the PID service. -/
def ctrlStop (pid : CtrlPidParamStruct) : CtrlPidParamStruct :=
  { pid with running := false }

/-- Modelled from the spec: isRunning() for the PID service. -/
def ctrlIsRunning (pid : CtrlPidParamStruct) : Bool :=
  pid.running

/-- Modelled from the spec: an IIR filter handle (order, type, coefficient
sets) from dfilter.c, which is not part of the given source. -/
structure DigitalFilterStruct where
  order : Nat
  type : Nat
  xcoeffs : List Rat
  ycoeffs : List Rat
  deriving DecidableEq

/-- Modelled from the spec: create(order, type, feedforward, feedback) for
the digital filter service. -/
def dfilterCreate (order ftype : Nat) (xcoeffs ycoeffs : List Rat) :
    DigitalFilterStruct :=
  ⟨order, ftype, xcoeffs, ycoeffs⟩

/-- Rate-filter parameter block passed to the filter setters. -/
structure RateFilterParamsStruct where
  order : Nat
  type : Nat
  xcoeffs : List Rat
  ycoeffs : List Rat
  deriving DecidableEq

/-- PID parameter block passed to the per-axis PID setters. -/
structure PidParamsStruct where
  ref : Rat
  kp : Rat
  ki : Rat
  kd : Rat
  offset : Rat
  beta : Rat
  gamma : Rat
  deriving DecidableEq

/-- The (thrust, steer, elevator) output triple of regulator.c. -/
structure RegulatorOutput where
  thrust : Rat
  steer : Rat
  elevator : Rat
  deriving DecidableEq

/-- Telemetry snapshot record: timestamp, reference and pose quaternions,
packed error (angle in w, roll in x, pitch in y, yaw in z) and the three
commanded outputs u[0] = thrust, u[1] = steer, u[2] = elevator. -/
structure RegulatorStateStruct where
  time : Int
  ref : Quaternion
  pose : Quaternion
  error : Quaternion
  u0 : Rat
  u1 : Rat
  u2 : Rat
  deriving DecidableEq

/-- The all-zero snapshot produced by memset in rgltrGetState. -/
def zeroRegulatorState : RegulatorStateStruct :=
  ⟨0, ⟨0, 0, 0, 0⟩, ⟨0, 0, 0, 0⟩, ⟨0, 0, 0, 0⟩, 0, 0, 0⟩

/-- Modelled from the spec: the bounded telemetry pool of pbuff.c, which is
not part of the given source.  Slots are idle, active or checked-out; the
active snapshots are kept oldest first.  Checked-out slots never persist
across calls in this single-consumer embedding, because the only consumer
operation copies the slot out and returns it within the same call. -/
structure PoolBuff where
  idleCount : Nat
  active : List RegulatorStateStruct
  deriving DecidableEq

/-- Modelled from the spec: pool initialisation with every slot idle. -/
def pbuffInit (n : Nat) : PoolBuff :=
  ⟨n, []⟩

/-- Modelled from the spec: the consumer-side claim of the oldest active
snapshot, or none when no unread snapshot exists. -/
def pbuffGetOldestActive (p : PoolBuff) : Option RegulatorStateStruct :=
  p.active.head?

/-- Modelled from the spec: the consumer returns the slot it just claimed,
making it idle (reclaimable) again. -/
def pbuffReturn (p : PoolBuff) : PoolBuff :=
  { p with idleCount := p.idleCount + 1, active := p.active.tail }

/-- Modelled from the spec: the producer-side slot acquisition.  Prefer an
idle slot; if none is idle, force-reclaim the oldest active slot; fail only
when every slot is checked out (the empty pool here). -/
def pbuffForceGetIdleOldest (p : PoolBuff) : Option PoolBuff :=
  if p.idleCount ≠ 0 then
    some { p with idleCount := p.idleCount - 1 }
  else
    match p.active with
    | [] => none
    | _ :: rest => some { p with active := rest }

/-- Modelled from the spec: the producer publishes the written snapshot as
the newest active entry. -/
def pbuffAddActive (p : PoolBuff) (snap : RegulatorStateStruct) : PoolBuff :=
  { p with active := p.active ++ [snap] }

/-- Modelled from the spec: the mode encoding of the missing regulator.h
header (an enumeration starting at zero). -/
def REG_OFF : Nat := 0

/-- Modelled from the spec: the tracking mode encoding. -/
def REG_TRACK : Nat := 1

/-- Modelled from the spec: the remote-control mode encoding. -/
def REG_REMOTE_CONTROL : Nat := 2

/-- The telemetry pool capacity REG_BUFF_SIZE of regulator.c. -/
def REG_BUFF_SIZE : Nat := 5

/-- Yaw saturation bounds of regulator.c. -/
def YAW_SAT_MAX : Rat := 1

/-- Yaw saturation lower bound of regulator.c. -/
def YAW_SAT_MIN : Rat := -1

/-- Pitch saturation upper bound of regulator.c. -/
def PITCH_SAT_MAX : Rat := 1

/-- Pitch saturation lower bound of regulator.c. -/
def PITCH_SAT_MIN : Rat := -1

/-- Roll saturation upper bound of regulator.c. -/
def ROLL_SAT_MAX : Rat := 1

/-- Roll saturation lower bound of regulator.c. -/
def ROLL_SAT_MIN : Rat := -1

/-- The static module state of regulator.c: readiness flag, mode, remote
override, reference quaternion, the three PID axes, the three rate filters
(none models a NULL filter handle) and the telemetry pool.  The servo
running flag stands for the state of the sync_servo collaborator, modelled
from the spec. -/
structure RegState where
  is_ready : Bool
  reg_mode : Nat
  rc_outputs : RegulatorOutput
  reference : Quaternion
  yawPid : CtrlPidParamStruct
  pitchPid : CtrlPidParamStruct
  rollPid : CtrlPidParamStruct
  yawRateFilter : Option DigitalFilterStruct
  pitchRateFilter : Option DigitalFilterStruct
  rollRateFilter : Option DigitalFilterStruct
  reg_state_buff : PoolBuff
  servoRunning : Bool
  deriving DecidableEq

/-- The zero-initialised static state at program start, before rgltrSetup. -/
def bootState : RegState :=
  ⟨false, 0, ⟨0, 0, 0⟩, ⟨0, 0, 0, 0⟩, ctrlInitPidParams 0, ctrlInitPidParams 0,
   ctrlInitPidParams 0, none, none, none, ⟨0, []⟩, false⟩

/-- Abstract collaborators consumed by one control cycle: the fixed-point
trigonometry of bams.c, the PID runner of controller.c, filter application
of dfilter.c, the clock tick and the pose estimate returned by attGetQuat.
All are opaque parameters of the embedding. -/
structure Env where
  bams16Acos : Rat → Int
  bams16ToFloatRad : Int → Rat
  bams16Sin : Int → Rat
  ctrlRunPid : CtrlPidParamStruct → Rat → Option DigitalFilterStruct → Rat
  dfilterApply : DigitalFilterStruct → Rat → Rat
  sclockGetLocalTicks : Int
  attGetQuat : Quaternion

/-- The non-null body of rgltrSetYawRateFilter: install a freshly created
yaw filter.  The source routes the coefficients through dfilterInit inside
the dfilterCreate call (a commented-out argument list); the net effect,
modelled from the spec contract of create, is a filter built from the
params block. -/
def setYawRateFilterBody (p : RateFilterParamsStruct) (s : RegState) :
    RegState :=
  { s with yawRateFilter := some (dfilterCreate p.order p.type p.xcoeffs p.ycoeffs) }

/-- rgltrSetYawRateFilter: the params pointer is dereferenced with no null
check, so a null argument is a fault (none), not a no-op. -/
def rgltrSetYawRateFilter (params : Option RateFilterParamsStruct)
    (s : RegState) : Option RegState :=
  match params with
  | none => none
  | some p => some (setYawRateFilterBody p s)

/-- rgltrSetPitchRateFilter: dereferences its argument with no null check. -/
def rgltrSetPitchRateFilter (params : Option RateFilterParamsStruct)
    (s : RegState) : Option RegState :=
  match params with
  | none => none
  | some p =>
      some { s with pitchRateFilter := some (dfilterCreate p.order p.type p.xcoeffs p.ycoeffs) }

/-- rgltrSetRollRateFilter: dereferences its argument with no null check. -/
def rgltrSetRollRateFilter (params : Option RateFilterParamsStruct)
    (s : RegState) : Option RegState :=
  match params with
  | none => none
  | some p =>
      some { s with rollRateFilter := some (dfilterCreate p.order p.type p.xcoeffs p.ycoeffs) }

/-- rgltrSetYawPid: dereferences its argument with no null check. -/
def rgltrSetYawPid (params : Option PidParamsStruct) (s : RegState) :
    Option RegState :=
  match params with
  | none => none
  | some p =>
      let pid1 := ctrlSetPidParams s.yawPid p.ref p.kp p.ki p.kd
      let pid2 := ctrlSetPidOffset pid1 p.offset
      let pid3 := ctrlSetRefWeigts pid2 p.beta p.gamma
      let pid4 := ctrlSetSaturation pid3 YAW_SAT_MAX YAW_SAT_MIN
      some { s with yawPid := pid4 }

/-- rgltrSetPitchPid: dereferences its argument with no null check. -/
def rgltrSetPitchPid (params : Option PidParamsStruct) (s : RegState) :
    Option RegState :=
  match params with
  | none => none
  | some p =>
      let pid1 := ctrlSetPidParams s.pitchPid p.ref p.kp p.ki p.kd
      let pid2 := ctrlSetPidOffset pid1 p.offset
      let pid3 := ctrlSetRefWeigts pid2 p.beta p.gamma
      let pid4 := ctrlSetSaturation pid3 PITCH_SAT_MAX PITCH_SAT_MIN
      some { s with pitchPid := pid4 }

/-- rgltrSetRollPid: dereferences its argument with no null check. -/
def rgltrSetRollPid (params : Option PidParamsStruct) (s : RegState) :
    Option RegState :=
  match params with
  | none => none
  | some p =>
      let pid1 := ctrlSetPidParams s.rollPid p.ref p.kp p.ki p.kd
      let pid2 := ctrlSetPidOffset pid1 p.offset
      let pid3 := ctrlSetRefWeigts pid2 p.beta p.gamma
      let pid4 := ctrlSetSaturation pid3 ROLL_SAT_MAX ROLL_SAT_MIN
      some { s with rollPid := pid4 }

/-- rgltrGetQuatRef: with a null destination pointer nothing is written
(result none); otherwise the reference quaternion is copied out. -/
def rgltrGetQuatRef (refNull : Bool) (s : RegState) : Option Quaternion :=
  if refNull then none else some s.reference

/-- rgltrSetQuatRef: a null argument is checked for and silently ignored;
otherwise the reference is overwritten by quatCopy. -/
def rgltrSetQuatRef (ref : Option Quaternion) (s : RegState) : RegState :=
  match ref with
  | none => s
  | some q => { s with reference := q }

/-- rgltrSetRemoteControlValues stores the manual override triple. -/
def rgltrSetRemoteControlValues (thrust steer elevator : Rat) (s : RegState) :
    RegState :=
  { s with rc_outputs := ⟨thrust, steer, elevator⟩ }

/-- rgltrSetMode: the three-way branch of regulator.c.  Any other flag value
falls through every branch and changes nothing.  The servo flag stands for
servoStart and servoStop, modelled from the spec. -/
def rgltrSetMode (flag : Nat) (s : RegState) : RegState :=
  if flag = REG_OFF then
    { s with reg_mode := flag, yawPid := ctrlStop s.yawPid,
             pitchPid := ctrlStop s.pitchPid, rollPid := ctrlStop s.rollPid,
             servoRunning := false }
  else if flag = REG_TRACK then
    { s with reg_mode := flag, yawPid := ctrlStart s.yawPid,
             pitchPid := ctrlStart s.pitchPid, rollPid := ctrlStart s.rollPid,
             servoRunning := true }
  else if flag = REG_REMOTE_CONTROL then
    { s with reg_mode := flag, yawPid := ctrlStop s.yawPid,
             pitchPid := ctrlStop s.pitchPid, rollPid := ctrlStop s.rollPid,
             servoRunning := true }
  else
    s

/-- The default yaw rate-filter parameter block built on the stack of
rgltrSetup: order 3, type 0, feedforward 1/6, 3, 3, 1, feedback
0, 0, 1/3, 0. -/
def defaultYawFilterParams : RateFilterParamsStruct :=
  ⟨3, 0, [1/6, 3, 3, 1], [0, 0, 1/3, 0]⟩

/-- The filter handle installed by rgltrSetup. -/
def defaultYawFilter : DigitalFilterStruct :=
  dfilterCreate 3 0 [1/6, 3, 3, 1] [0, 0, 1/3, 0]

/-- rgltrSetup: clear readiness, force mode Off, reinitialise the three PID
axes with the sample period, rebuild the telemetry pool with every slot
idle, reset the reference quaternion to the identity, install the default
yaw rate filter and finally mark the module ready. -/
def rgltrSetup (ts : Rat) (s : RegState) : RegState :=
  let s1 := { s with is_ready := false, reg_mode := REG_OFF }
  let s2 := { s1 with yawPid := ctrlInitPidParams ts,
                      pitchPid := ctrlInitPidParams ts,
                      rollPid := ctrlInitPidParams ts }
  let s3 := { s2 with reg_state_buff := pbuffInit REG_BUFF_SIZE }
  let s4 := { s3 with reference := ⟨1, 0, 0, 0⟩ }
  let s5 := setYawRateFilterBody defaultYawFilterParams s4
  { s5 with is_ready := true }

/-- rgltrGetState: claim the oldest active snapshot; if none exists, hand
back an all-zero snapshot and leave the pool untouched; otherwise copy the
snapshot out and immediately return the slot to the pool. -/
def rgltrGetState (p : PoolBuff) : RegulatorStateStruct × PoolBuff :=
  match pbuffGetOldestActive p with
  | none => (zeroRegulatorState, p)
  | some src => (src, pbuffReturn p)

/-- The four values produced by the error-extraction block of
rgltrRunController (lines 300 to 312 of regulator.c).  The aJunk parameter
models the indeterminate initial contents of the local variable a, which
the degenerate branch never assigns. -/
structure ErrorExtract where
  yaw_err : Rat
  pitch_err : Rat
  roll_err : Rat
  a : Rat
  deriving DecidableEq

/-- The error-extraction block of rgltrRunController, applied to the error
quaternion.  In the w = 1 branch the three errors are zeroed but the angle
variable keeps its indeterminate prior value aJunk; otherwise the half
angle comes from bams16Acos, the full angle from converting the doubled
half angle to radians, and the scale divides the angle by the sine of the
half angle. -/
def extractError (env : Env) (aJunk : Rat) (error : Quaternion) :
    ErrorExtract :=
  if error.w = 1 then
    ⟨0, 0, 0, aJunk⟩
  else
    let a_2 := env.bams16Acos error.w
    let a := env.bams16ToFloatRad (a_2 * 2)
    let sina_2 := env.bams16Sin a_2
    let scale := a / sina_2
    ⟨error.z * scale, error.y * scale, error.x * scale, a⟩

/-- runYawControl of regulator.c: zero when the yaw controller is stopped,
otherwise the PID runner on the yaw axis with the yaw rate filter. -/
def runYawControl (env : Env) (s : RegState) (yaw : Rat) : Rat :=
  if ctrlIsRunning s.yawPid = false then 0
  else env.ctrlRunPid s.yawPid yaw s.yawRateFilter

/-- runPitchControl of regulator.c: zero when the pitch controller is
stopped, otherwise the PID runner on the pitch axis with the pitch rate
filter. -/
def runPitchControl (env : Env) (s : RegState) (pitch : Rat) : Rat :=
  if ctrlIsRunning s.pitchPid = false then 0
  else env.ctrlRunPid s.pitchPid pitch s.pitchRateFilter

/-- runRollControl of regulator.c: zero when the roll controller is
stopped, otherwise the PID runner on the roll axis with the roll rate
filter.  No call site exists in the control cycle. -/
def runRollControl (env : Env) (s : RegState) (roll : Rat) : Rat :=
  if ctrlIsRunning s.rollPid = false then 0
  else env.ctrlRunPid s.rollPid roll s.rollRateFilter

/-- Events recording which collaborators one control cycle invoked, in
order. -/
inductive CallEvent where
  | runYawControlCall (e : Rat)
  | runPitchControlCall (e : Rat)
  | runRollControlCall (e : Rat)
  | dfilterApplyCall (e : Rat)
  | pbuffAddActiveCall
  | mcSteerCall (v : Rat)
  | mcThrustCall (v : Rat)
  | servoSetCall (v : Rat)
  deriving DecidableEq

/-- True exactly on roll-controller invocation events. -/
def isRollCallEvent : CallEvent → Bool
  | CallEvent.runRollControlCall _ => true
  | _ => false

/-- The mode branch of rgltrRunController: the (steer, thrust, elevator)
triple together with the axis-controller invocations it performs.  Remote
control passes the stored override through; tracking runs the yaw and
pitch pipelines and takes thrust from the override; every other mode value
(Off included) yields zeros. -/
def modeOutputs (env : Env) (s : RegState) (yaw_err pitch_err : Rat) :
    (Rat × Rat × Rat) × List CallEvent :=
  if s.reg_mode = REG_REMOTE_CONTROL then
    ((s.rc_outputs.steer, s.rc_outputs.thrust, s.rc_outputs.elevator), [])
  else if s.reg_mode = REG_TRACK then
    ((runYawControl env s yaw_err, s.rc_outputs.thrust,
      runPitchControl env s pitch_err),
     [CallEvent.runYawControlCall yaw_err, CallEvent.runPitchControlCall pitch_err])
  else
    ((0, 0, 0), [])

/-- The unconditional cross-axis step of rgltrRunController: when a yaw
rate filter is attached, the pitch error is passed through it. -/
def crossAxisFilter (env : Env) (s : RegState) (pitch_err : Rat) :
    Rat × List CallEvent :=
  match s.yawRateFilter with
  | none => (pitch_err, [])
  | some f => (env.dfilterApply f pitch_err, [CallEvent.dfilterApplyCall pitch_err])

/-- The telemetry publication step of rgltrRunController: acquire a slot
(force-reclaiming if needed), fill the snapshot and mark it active; when no
slot can be acquired the cycle silently skips telemetry. -/
def publishState (env : Env) (s : RegState) (pose : Quaternion)
    (a roll_err pitch_err yaw_err thrust steer elevator : Rat) :
    PoolBuff × List CallEvent :=
  match pbuffForceGetIdleOldest s.reg_state_buff with
  | none => (s.reg_state_buff, [])
  | some pb =>
      (pbuffAddActive pb
        ⟨env.sclockGetLocalTicks, s.reference, pose,
         ⟨a, roll_err, pitch_err, yaw_err⟩, thrust, steer, elevator⟩,
       [CallEvent.pbuffAddActiveCall])

/-- The result of one control cycle: the new module state, the actuator
command triple (none when the cycle was a not-ready no-op) and the ordered
collaborator-call trace. -/
structure CycleResult where
  state : RegState
  output : Option RegulatorOutput
  trace : List CallEvent

/-- rgltrRunController: no-op unless ready; read the pose, build the error
quaternion as reference times the conjugate of the pose, extract the
per-axis errors, branch on the mode, apply the cross-axis pitch filter,
publish the telemetry snapshot and issue steer, thrust and elevator to the
actuators. -/
def rgltrRunController (env : Env) (aJunk : Rat) (s : RegState) :
    CycleResult :=
  if s.is_ready = false then ⟨s, none, []⟩
  else
    let pose := env.attGetQuat
    let conj := quatConj pose
    let error := quatMult s.reference conj
    let ex := extractError env aJunk error
    let mo := modeOutputs env s ex.yaw_err ex.pitch_err
    let cf := crossAxisFilter env s ex.pitch_err
    let pub := publishState env s pose ex.a ex.roll_err cf.1 ex.yaw_err
      mo.1.2.1 mo.1.1 mo.1.2.2
    ⟨{ s with reg_state_buff := pub.1 },
     some ⟨mo.1.2.1, mo.1.1, mo.1.2.2⟩,
     mo.2 ++ cf.2 ++ pub.2 ++
       [CallEvent.mcSteerCall mo.1.1, CallEvent.mcThrustCall mo.1.2.1,
        CallEvent.servoSetCall mo.1.2.2]⟩

/-- The error extraction as the cycle performs it: the extraction block
applied to the product of the stored reference with the conjugate of the
pose estimate. -/
def cycleError (env : Env) (aJunk : Rat) (s : RegState) : ErrorExtract :=
  extractError env aJunk (quatMult s.reference (quatConj env.attGetQuat))

/-- A sequence of rgltrSetMode calls applied in order. -/
def applyModes (l : List Nat) (s : RegState) : RegState :=
  match l with
  | [] => s
  | f :: rest => applyModes rest (rgltrSetMode f s)

/-- The remote-control invariant: whenever the mode is remote control, all
three axis controllers report not-running. -/
def modeInv (s : RegState) : Prop :=
  s.reg_mode = REG_REMOTE_CONTROL →
    ctrlIsRunning s.yawPid = false ∧ ctrlIsRunning s.pitchPid = false ∧
    ctrlIsRunning s.rollPid = false

-- ===== Helper lemmas =====================================================

/-- A single rgltrSetMode call preserves the remote-control invariant. -/
theorem rgltrSetMode_preserves_modeInv (f : Nat) (s : RegState)
    (h : modeInv s) : modeInv (rgltrSetMode f s) := by
  unfold rgltrSetMode
  split_ifs with h1 h2 h3
  · intro hm
    simp only [h1] at hm
    exact absurd hm (by decide)
  · intro hm
    simp only [h2] at hm
    exact absurd hm (by decide)
  · intro _
    exact ⟨rfl, rfl, rfl⟩
  · exact h

/-- Any rgltrSetMode sequence preserves the remote-control invariant. -/
theorem applyModes_preserves_modeInv (l : List Nat) (s : RegState)
    (h : modeInv s) : modeInv (applyModes l s) := by
  induction l generalizing s with
  | nil => exact h
  | cons f rest ih => exact ih (rgltrSetMode f s) (rgltrSetMode_preserves_modeInv f s h)

/-- When the pool has an idle slot or an active slot, the producer-side
acquisition succeeds. -/
theorem pbuffForceGetIdleOldest_some (p : PoolBuff)
    (h : p.idleCount ≠ 0 ∨ p.active ≠ []) :
    ∃ q, pbuffForceGetIdleOldest p = some q := by
  unfold pbuffForceGetIdleOldest
  split_ifs with h1
  · exact ⟨_, rfl⟩
  · have ha : p.active ≠ [] := by
      rcases h with h | h
      · exact absurd h h1
      · exact h
    cases hx : p.active with
    | nil => exact absurd hx ha
    | cons a rest => exact ⟨_, rfl⟩

/-- The mode branch never records a roll-controller invocation. -/
theorem modeOutputs_no_roll (env : Env) (s : RegState) (y pe : Rat) :
    (modeOutputs env s y pe).2.filter isRollCallEvent = [] := by
  unfold modeOutputs
  split_ifs <;> rfl

/-- The cross-axis filter step never records a roll-controller
invocation. -/
theorem crossAxisFilter_no_roll (env : Env) (s : RegState) (pe : Rat) :
    (crossAxisFilter env s pe).2.filter isRollCallEvent = [] := by
  unfold crossAxisFilter
  cases s.yawRateFilter <;> rfl

/-- The telemetry publication step never records a roll-controller
invocation. -/
theorem publishState_no_roll (env : Env) (s : RegState) (pose : Quaternion)
    (a re pe ye th st el : Rat) :
    (publishState env s pose a re pe ye th st el).2.filter isRollCallEvent = [] := by
  unfold publishState
  cases hp : pbuffForceGetIdleOldest s.reg_state_buff <;> simp [hp, isRollCallEvent]

/-- The mode-branch result as the cycle computes it, on the extracted
errors of the cycle. -/
def cycleMode (env : Env) (aJunk : Rat) (s : RegState) :
    (Rat × Rat × Rat) × List CallEvent :=
  modeOutputs env s (cycleError env aJunk s).yaw_err (cycleError env aJunk s).pitch_err

/-- The collaborator calls a cycle performs before the three actuator
commands: the mode branch, the cross-axis filter and the publication. -/
def cyclePrefix (env : Env) (aJunk : Rat) (s : RegState) : List CallEvent :=
  (cycleMode env aJunk s).2 ++
  (crossAxisFilter env s (cycleError env aJunk s).pitch_err).2 ++
  (publishState env s env.attGetQuat (cycleError env aJunk s).a
    (cycleError env aJunk s).roll_err
    (crossAxisFilter env s (cycleError env aJunk s).pitch_err).1
    (cycleError env aJunk s).yaw_err
    (cycleMode env aJunk s).1.2.1 (cycleMode env aJunk s).1.1
    (cycleMode env aJunk s).1.2.2).2

/-- A concrete collaborator environment for closed evaluations: identity
pose estimate, zero trigonometry, identity filter application. -/
def envA : Env :=
  ⟨fun _ => 0, fun _ => 0, fun _ => 0, fun _ _ _ => 0, fun _ v => v, 0,
   ⟨1, 0, 0, 0⟩⟩

/-- A concrete collaborator environment whose filter application visibly
changes its sample and whose radian conversion is the zero map. -/
def envB : Env :=
  ⟨fun _ => 1, fun _ => 0, fun _ => 2, fun _ _ _ => 0, fun _ v => v + 1, 3,
   ⟨1, 0, 0, 0⟩⟩

-- ===== Claim theorems ====================================================

/-- C3: setMode(Off) stops all three axis controllers and stops the servo;
setMode(Track) starts all three and starts the servo; setMode(RemoteControl)
stops all three and starts the servo; repeated entry into the same state
re-applies the same calls (idempotent, no error); and in every state
reachable through setMode from the post-setup state, mode RemoteControl
implies all three controllers report not-running. -/
theorem C3_mode_state_machine :
    (∀ s : RegState, rgltrSetMode REG_OFF s =
      { s with reg_mode := REG_OFF, yawPid := ctrlStop s.yawPid,
               pitchPid := ctrlStop s.pitchPid, rollPid := ctrlStop s.rollPid,
               servoRunning := false }) ∧
    (∀ s : RegState, rgltrSetMode REG_TRACK s =
      { s with reg_mode := REG_TRACK, yawPid := ctrlStart s.yawPid,
               pitchPid := ctrlStart s.pitchPid, rollPid := ctrlStart s.rollPid,
               servoRunning := true }) ∧
    (∀ s : RegState, rgltrSetMode REG_REMOTE_CONTROL s =
      { s with reg_mode := REG_REMOTE_CONTROL, yawPid := ctrlStop s.yawPid,
               pitchPid := ctrlStop s.pitchPid, rollPid := ctrlStop s.rollPid,
               servoRunning := true }) ∧
    (∀ (f : Nat) (s : RegState),
      rgltrSetMode f (rgltrSetMode f s) = rgltrSetMode f s) ∧
    (∀ (ts : Rat) (s : RegState), modeInv (rgltrSetup ts s)) ∧
    (∀ (l : List Nat) (s : RegState), modeInv s → modeInv (applyModes l s)) := by
  refine ⟨fun s => rfl, fun s => rfl, fun s => rfl, fun f s => ?_, fun ts s => ?_, fun l s h => applyModes_preserves_modeInv l s h⟩
  · unfold rgltrSetMode
    split_ifs <;> rfl
  · intro hm
    have h0 : (0 : Nat) = 2 := hm
    exact absurd h0 (by decide)

/-- C3 witness: starting from setup and passing through Track into
RemoteControl, the invariant holds, instantiating both hypothesis-bearing
conjuncts of the theorem. -/
theorem C3_mode_state_machine_witness :
    modeInv (applyModes [REG_TRACK, REG_REMOTE_CONTROL] (rgltrSetup 1 bootState)) :=
  C3_mode_state_machine.2.2.2.2.2 [REG_TRACK, REG_REMOTE_CONTROL]
    (rgltrSetup 1 bootState) (C3_mode_state_machine.2.2.2.2.1 1 bootState)

/-- C8 counterexample: the claim says every reference-taking setter
silently ignores a null argument with no write and no error, but the yaw
PID setter dereferences the null pointer, so at this concrete input the
call faults instead of leaving the state unchanged. -/
theorem C8_null_pid_setter_counterexample :
    ¬ rgltrSetYawPid none (rgltrSetup 1 bootState) = some (rgltrSetup 1 bootState) :=
  fun h => Option.noConfusion h

/-- C8 amended: the quaternion reference setter and getter null-check and
silently ignore a null argument (no write, no error), while the per-axis
PID parameter setters and rate-filter setters perform no null check and
dereference the argument unconditionally, so a null argument there is a
fault rather than a silent no-op. -/
theorem C8_null_argument_handling (s : RegState) :
    rgltrSetQuatRef none s = s ∧
    rgltrGetQuatRef true s = none ∧
    rgltrSetYawPid none s = none ∧
    rgltrSetPitchPid none s = none ∧
    rgltrSetRollPid none s = none ∧
    rgltrSetYawRateFilter none s = none ∧
    rgltrSetPitchRateFilter none s = none ∧
    rgltrSetRollRateFilter none s = none :=
  ⟨rfl, rfl, rfl, rfl, rfl, rfl, rfl, rfl⟩

/-- C9: the consumer-side telemetry read: with no active snapshot it yields
the all-zero snapshot and leaves the pool unchanged; otherwise it copies
out the oldest active snapshot and immediately returns that slot, which
becomes idle (reclaimable) while the remaining active entries shift up. -/
theorem C9_get_state_contract (p : PoolBuff) :
    (p.active = [] → rgltrGetState p = (zeroRegulatorState, p)) ∧
    (∀ (snap : RegulatorStateStruct) (rest : List RegulatorStateStruct),
      p.active = snap :: rest →
      rgltrGetState p = (snap, { p with idleCount := p.idleCount + 1, active := rest })) := by
  constructor
  · intro h
    unfold rgltrGetState pbuffGetOldestActive
    rw [h]
    rfl
  · intro snap rest h
    unfold rgltrGetState pbuffGetOldestActive pbuffReturn
    rw [h]
    rfl

/-- C9 witness: the empty pool yields the zero snapshot unchanged, and a
pool holding one active snapshot yields that snapshot with its slot
returned to idle. -/
theorem C9_get_state_contract_witness :
    rgltrGetState ⟨5, []⟩ = (zeroRegulatorState, ⟨5, []⟩) ∧
    rgltrGetState ⟨4, [zeroRegulatorState]⟩ = (zeroRegulatorState, ⟨5, []⟩) :=
  ⟨(C9_get_state_contract ⟨5, []⟩).1 rfl,
   (C9_get_state_contract ⟨4, [zeroRegulatorState]⟩).2 zeroRegulatorState [] rfl⟩

/-- C1 (code bug): with reference = pose = identity the error quaternion
has w = 1 and the degenerate branch zeroes the three axis errors, but the
local angle variable is never assigned in the branch; its indeterminate
prior value (1 in this run) is what the cycle writes into the published
snapshot's angle field, so the recorded angle is not the zero the claim
requires. -/
theorem C1_degenerate_angle_uninitialized :
    cycleError envA 1 (rgltrSetup 1 bootState) = ⟨0, 0, 0, 1⟩ ∧
    ((rgltrRunController envA 1 (rgltrSetup 1 bootState)).state.reg_state_buff.active.map
      (fun st => st.error)) = [⟨1, 0, 0, 0⟩] := by
  norm_num [cycleError, extractError, rgltrRunController, modeOutputs,
    crossAxisFilter, publishState, pbuffForceGetIdleOldest, pbuffAddActive,
    pbuffInit, rgltrSetup, setYawRateFilterBody, defaultYawFilterParams,
    dfilterCreate, ctrlInitPidParams, bootState, envA, quatMult, quatConj,
    REG_OFF, REG_TRACK, REG_REMOTE_CONTROL, REG_BUFF_SIZE]

/-- C2: for every reference and pose whose error quaternion
qerr = reference times conjugate(pose) has w different from 1, and any
trigonometric collaborators whose bams-to-radian conversion commutes with
the doubling (the exactness assumption on the fixed-point trig), the
extraction computes the half angle as acos(qerr.w), the full angle as
twice the half angle, the scale as angle over sin(half angle), and the
yaw, pitch and roll errors as qerr.z, qerr.y and qerr.x times that scale,
reporting the full angle as the rotation magnitude. -/
theorem C2_error_extraction_formulas (env : Env) (aJunk : Rat)
    (refq poseq : Quaternion)
    (hlin : ∀ n : Int, env.bams16ToFloatRad (n * 2) = 2 * env.bams16ToFloatRad n)
    (hw : (quatMult refq (quatConj poseq)).w ≠ 1) :
    extractError env aJunk (quatMult refq (quatConj poseq)) =
      ⟨(quatMult refq (quatConj poseq)).z *
         (2 * env.bams16ToFloatRad (env.bams16Acos (quatMult refq (quatConj poseq)).w) /
          env.bams16Sin (env.bams16Acos (quatMult refq (quatConj poseq)).w)),
       (quatMult refq (quatConj poseq)).y *
         (2 * env.bams16ToFloatRad (env.bams16Acos (quatMult refq (quatConj poseq)).w) /
          env.bams16Sin (env.bams16Acos (quatMult refq (quatConj poseq)).w)),
       (quatMult refq (quatConj poseq)).x *
         (2 * env.bams16ToFloatRad (env.bams16Acos (quatMult refq (quatConj poseq)).w) /
          env.bams16Sin (env.bams16Acos (quatMult refq (quatConj poseq)).w)),
       2 * env.bams16ToFloatRad (env.bams16Acos (quatMult refq (quatConj poseq)).w)⟩ := by
  simp only [extractError, if_neg hw, hlin]

/-- C2 witness: a concrete environment and a reference quaternion with
w = 0 discharge the hypotheses, and the instantiated formulas evaluate. -/
theorem C2_error_extraction_formulas_witness :
    (quatMult ⟨0, 1, 0, 0⟩ (quatConj ⟨1, 0, 0, 0⟩)).w ≠ 1 ∧
    extractError envB 0 (quatMult ⟨0, 1, 0, 0⟩ (quatConj ⟨1, 0, 0, 0⟩)) =
      ⟨0, 0, 0, 0⟩ :=
  ⟨by norm_num [quatMult, quatConj],
   (C2_error_extraction_formulas envB 0 ⟨0, 1, 0, 0⟩ ⟨1, 0, 0, 0⟩
      (fun n => by simp [envB])
      (by norm_num [quatMult, quatConj])).trans
    (by norm_num [envB, quatMult, quatConj])⟩

/-- C4: in an initialized cycle with mode Off the commanded actuator triple
is exactly thrust 0, steer 0, elevator 0, regardless of reference, pose and
remote override; and in every initialized cycle, in every mode, the cycle
ends by issuing the three actuator commands carrying the commanded
triple. -/
theorem C4_off_zero_and_unconditional_commands (env : Env) (aJunk : Rat)
    (s : RegState) (hready : s.is_ready = true) :
    (s.reg_mode = REG_OFF →
      (rgltrRunController env aJunk s).output = some ⟨0, 0, 0⟩) ∧
    (rgltrRunController env aJunk s).output =
      some ⟨(cycleMode env aJunk s).1.2.1, (cycleMode env aJunk s).1.1,
            (cycleMode env aJunk s).1.2.2⟩ ∧
    (rgltrRunController env aJunk s).trace =
      cyclePrefix env aJunk s ++
        [CallEvent.mcSteerCall (cycleMode env aJunk s).1.1,
         CallEvent.mcThrustCall (cycleMode env aJunk s).1.2.1,
         CallEvent.servoSetCall (cycleMode env aJunk s).1.2.2] := by
  refine ⟨?_, ?_, ?_⟩
  · intro hoff
    simp [rgltrRunController, hready, modeOutputs, hoff, REG_OFF, REG_TRACK,
      REG_REMOTE_CONTROL]
  · simp [rgltrRunController, hready, cycleMode, cycleError]
  · simp [rgltrRunController, hready, cyclePrefix, cycleMode, cycleError,
      List.append_assoc]

/-- C4 witness: the freshly set-up state is ready and in mode Off, and the
cycle commands the zero triple. -/
theorem C4_off_zero_and_unconditional_commands_witness :
    (rgltrSetup 1 bootState).is_ready = true ∧
    (rgltrRunController envA 1 (rgltrSetup 1 bootState)).output = some ⟨0, 0, 0⟩ :=
  ⟨rfl, (C4_off_zero_and_unconditional_commands envA 1 (rgltrSetup 1 bootState) rfl).1 rfl⟩

/-- C5: in an initialized cycle in remote-control mode the commanded
actuator triple is exactly the last triple stored by
rgltrSetRemoteControlValues, for every reference, pose estimate and
extracted error. -/
theorem C5_remote_override_passthrough (env : Env) (aJunk th st el : Rat)
    (s : RegState) (hready : s.is_ready = true)
    (hmode : s.reg_mode = REG_REMOTE_CONTROL) :
    (rgltrRunController env aJunk (rgltrSetRemoteControlValues th st el s)).output =
      some ⟨th, st, el⟩ := by
  simp [rgltrRunController, rgltrSetRemoteControlValues, hready, hmode,
    modeOutputs]

/-- C5 witness: the spec scenario with override thrust 1/2, steer -1/5,
elevator 1/10 in remote-control mode. -/
theorem C5_remote_override_passthrough_witness :
    (rgltrRunController envA 0
      (rgltrSetRemoteControlValues (1/2) (-1/5) (1/10)
        (rgltrSetMode REG_REMOTE_CONTROL (rgltrSetup 1 bootState)))).output =
      some ⟨1/2, -1/5, 1/10⟩ :=
  C5_remote_override_passthrough envA 0 (1/2) (-1/5) (1/10)
    (rgltrSetMode REG_REMOTE_CONTROL (rgltrSetup 1 bootState)) rfl rfl

/-- C6: in every initialized cycle with a yaw rate filter attached, after
the mode branch has produced the commanded triple from the raw errors, the
pitch error is passed through the yaw-axis rate filter before the snapshot
is written: the published snapshot carries the filtered pitch error (and
the raw roll and yaw errors), while the commanded triple is built from the
unfiltered pitch error. -/
theorem C6_cross_axis_pitch_filter (env : Env) (aJunk : Rat) (s : RegState)
    (f : DigitalFilterStruct) (hready : s.is_ready = true)
    (hf : s.yawRateFilter = some f)
    (hroom : s.reg_state_buff.idleCount ≠ 0 ∨ s.reg_state_buff.active ≠ []) :
    (∃ rest, (rgltrRunController env aJunk s).state.reg_state_buff.active =
      rest ++ [⟨env.sclockGetLocalTicks, s.reference, env.attGetQuat,
        ⟨(cycleError env aJunk s).a, (cycleError env aJunk s).roll_err,
         env.dfilterApply f (cycleError env aJunk s).pitch_err,
         (cycleError env aJunk s).yaw_err⟩,
        (cycleMode env aJunk s).1.2.1, (cycleMode env aJunk s).1.1,
        (cycleMode env aJunk s).1.2.2⟩]) ∧
    (rgltrRunController env aJunk s).output =
      some ⟨(cycleMode env aJunk s).1.2.1, (cycleMode env aJunk s).1.1,
            (cycleMode env aJunk s).1.2.2⟩ := by
  obtain ⟨pb, hpb⟩ := pbuffForceGetIdleOldest_some s.reg_state_buff hroom
  constructor
  · refine ⟨pb.active, ?_⟩
    simp [rgltrRunController, hready, publishState, hpb, pbuffAddActive,
      crossAxisFilter, hf, cycleMode, cycleError]
  · simp [rgltrRunController, hready, cycleMode, cycleError]

/-- C6 witness: the post-setup state with its default yaw filter and a
fully idle pool, under an environment whose filter application adds one. -/
theorem C6_cross_axis_pitch_filter_witness :
    (∃ rest, (rgltrRunController envB 2 (rgltrSetup 1 bootState)).state.reg_state_buff.active =
      rest ++ [⟨envB.sclockGetLocalTicks, (rgltrSetup 1 bootState).reference,
        envB.attGetQuat,
        ⟨(cycleError envB 2 (rgltrSetup 1 bootState)).a,
         (cycleError envB 2 (rgltrSetup 1 bootState)).roll_err,
         envB.dfilterApply defaultYawFilter
           (cycleError envB 2 (rgltrSetup 1 bootState)).pitch_err,
         (cycleError envB 2 (rgltrSetup 1 bootState)).yaw_err⟩,
        (cycleMode envB 2 (rgltrSetup 1 bootState)).1.2.1,
        (cycleMode envB 2 (rgltrSetup 1 bootState)).1.1,
        (cycleMode envB 2 (rgltrSetup 1 bootState)).1.2.2⟩]) ∧
    (rgltrRunController envB 2 (rgltrSetup 1 bootState)).output =
      some ⟨(cycleMode envB 2 (rgltrSetup 1 bootState)).1.2.1,
            (cycleMode envB 2 (rgltrSetup 1 bootState)).1.1,
            (cycleMode envB 2 (rgltrSetup 1 bootState)).1.2.2⟩ :=
  C6_cross_axis_pitch_filter envB 2 (rgltrSetup 1 bootState) defaultYawFilter
    rfl rfl (Or.inl (by decide))

/-- C7: no control cycle, in any mode and on any input, records an
invocation of the roll control pipeline, and the commanded outputs and the
whole collaborator trace are unchanged under arbitrary replacement of the
roll controller and roll rate filter. -/
theorem C7_roll_controller_never_invoked (env : Env) (aJunk : Rat)
    (s : RegState) (p : CtrlPidParamStruct) (df : Option DigitalFilterStruct) :
    (rgltrRunController env aJunk s).trace.filter isRollCallEvent = [] ∧
    (rgltrRunController env aJunk { s with rollPid := p, rollRateFilter := df }).output =
      (rgltrRunController env aJunk s).output ∧
    (rgltrRunController env aJunk { s with rollPid := p, rollRateFilter := df }).trace =
      (rgltrRunController env aJunk s).trace := by
  have hpr : ({ s with rollPid := p, rollRateFilter := df } : RegState).is_ready = s.is_ready := rfl
  refine ⟨?_, ?_, ?_⟩
  · unfold rgltrRunController
    split_ifs
    · rfl
    · simp [List.filter_append, modeOutputs_no_roll, crossAxisFilter_no_roll,
        publishState_no_roll, isRollCallEvent]
  · unfold rgltrRunController
    rw [hpr]
    split_ifs <;> rfl
  · unfold rgltrRunController
    rw [hpr]
    split_ifs <;> rfl

/-- C10: after rgltrSetup the mode is Off, the reference quaternion is the
identity, the module is ready, and a default yaw rate filter of order 3
with feedforward coefficients 1/6, 3, 3, 1 and feedback coefficients
0, 0, 1/3, 0 is attached, so the cross-axis pitch filtering and the yaw
PID's filter path are active without any setRateFilter call. -/
theorem C10_setup_defaults (ts : Rat) (s : RegState) :
    (rgltrSetup ts s).reg_mode = REG_OFF ∧
    (rgltrSetup ts s).reference = ⟨1, 0, 0, 0⟩ ∧
    (rgltrSetup ts s).yawRateFilter = some defaultYawFilter ∧
    defaultYawFilter = ⟨3, 0, [1/6, 3, 3, 1], [0, 0, 1/3, 0]⟩ ∧
    (rgltrSetup ts s).is_ready = true :=
  ⟨rfl, rfl, rfl, rfl, rfl⟩

end IBird
